import Mathlib

/-!
Verification of the two web-session handlers of the payroll/schedule
automation tool: `PayslipHandler` (src/handlers/payslip_handler.py) and
`ScheduleHandler` (src/handlers/schedule_handler.py).

The Python code is shallowly embedded: HTTP traffic is abstracted into
environment records that supply each step of a flow with the response the
server would have produced, and every public operation additionally
returns the list of requests it issued, so that claims of the form
"before any network call" become statements about an empty request trace.
HTML documents are abstracted to the pieces the code reads from them
(hidden input fields, the `tdb` table cells, dt/dd label pairs, form
controls, elements carrying an error class).  String primitives used by
the code (`in`, slicing, `strip`, `split`, `replace`, `endswith`,
`int()`) are re-implemented over `List Char` so that all definitions are
kernel-executable.  `int()` is modelled as an optional sign followed by
ASCII digits (Python underscore grouping and non-ASCII digits are not
modelled); `float()` literals are modelled without exponent/inf/nan
forms, and a successfully parsed float is represented by its literal
text, since no claim computes with float values.
-/

/-! ## String primitives (Python semantics over code points) -/

/-- `preTest pat l` : `pat` is a prefix of `l`. -/
def preTest : List Char → List Char → Bool
  | [], _ => true
  | _ :: _, [] => false
  | a :: as, b :: bs => a == b && preTest as bs

/-- `subTest pat l` : `pat` occurs as a contiguous run inside `l`
(Python `pat in l`). -/
def subTest (pat : List Char) : List Char → Bool
  | [] => preTest pat []
  | c :: t => preTest pat (c :: t) || subTest pat t

/-- `sufTest pat l` : `pat` is a suffix of `l` (Python `l.endswith(pat)`). -/
def sufTest (pat : List Char) : List Char → Bool
  | [] => pat.isEmpty
  | c :: t => pat == c :: t || sufTest pat t

/-- Python `pat in s` on strings. -/
def strContains (s pat : String) : Bool := subTest pat.data s.data

/-- Python `s.endswith(pat)`. -/
def strEnds (s pat : String) : Bool := sufTest pat.data s.data

/-- Python `s[0:8]` (slicing by code point). -/
def pyTake8 (s : String) : String := ⟨s.data.take 8⟩

/-- Python `s.strip()` (whitespace as recognised by `Char.isWhitespace`). -/
def pyStrip (s : String) : String :=
  ⟨((s.data.dropWhile Char.isWhitespace).reverse.dropWhile Char.isWhitespace).reverse⟩

/-- Split a character list on a separator character; Python
`s.split(sep)` semantics (`"".split(sep) == [""]`). -/
def splitChar (sep : Char) : List Char → List (List Char)
  | [] => [[]]
  | c :: t =>
    if c == sep then
      [] :: splitChar sep t
    else
      match splitChar sep t with
      | [] => [[c]]
      | h :: r => (c :: h) :: r

/-- Python `s.split("/")`. -/
def splitSlash (s : String) : List String := (splitChar '/' s.data).map List.asString

/-- Python `s.replace(",", "")`. -/
def removeCommas (s : String) : String := ⟨s.data.filter (fun c => !(c == ','))⟩

/-- Digits of a non-empty all-digit character list, as a number. -/
def digitsToNat? (l : List Char) : Option Nat :=
  if l ≠ [] && l.all Char.isDigit then
    some (l.foldl (fun a c => a * 10 + (c.toNat - '0'.toNat)) 0)
  else none

/-- Python `int(s)`: optional surrounding whitespace, optional sign,
ASCII digits; anything else raises `ValueError`, modelled as `none`. -/
def pyInt? (s : String) : Option Int :=
  match (pyStrip s).data with
  | '+' :: r => (digitsToNat? r).map Int.ofNat
  | '-' :: r => (digitsToNat? r).map (fun n => -(n : Int))
  | r => (digitsToNat? r).map Int.ofNat

/-- Valid Python `float` literal (simplified: sign, digits with one
optional decimal point, at least one digit; no exponent/inf/nan). -/
def pyFloatOk (s : String) : Bool :=
  let l := (pyStrip s).data
  let l := match l with
    | '+' :: r => r
    | '-' :: r => r
    | r => r
  match splitChar '.' l with
  | [a] => !a.isEmpty && a.all Char.isDigit
  | [a, b] => (!a.isEmpty || !b.isEmpty) && a.all Char.isDigit && b.all Char.isDigit
  | _ => false

/-- Python `sep.join(l)`. -/
def joinSep (sep : String) : List String → String
  | [] => ""
  | [x] => x
  | x :: xs => x ++ sep ++ joinSep sep xs

/-! ## Association lists (Python `dict` with string keys) -/

/-- First value stored under key `k`. -/
def lookupAL {α : Type} : List (String × α) → String → Option α
  | [], _ => none
  | q :: t, k => if q.1 = k then some q.2 else lookupAL t k

/-- Python `d[k] = v`: replace in place if present, else append.  (Keys
built this way are unique, exactly as in a Python `dict`.) -/
def setAL {α : Type} : List (String × α) → String → α → List (String × α)
  | [], k, v => [(k, v)]
  | q :: t, k, v => if q.1 = k then (k, v) :: t else q :: setAL t k v

/-! ## List-page table scan (`fetch_salary_data` / `fetch_bonus_data`) -/

/-- An `input` element found inside a table cell (its `name` attribute
may be absent). -/
structure TdInput where
  nameAttr : Option String
deriving DecidableEq, Repr

/-- One `td` of the `tdb` list table: its stripped text and the first
`input` element inside it, if any. -/
structure Cell where
  text : String
  input : Option TdInput
deriving DecidableEq, Repr

/-- One row of the salary list scan (payslip_handler.py lines 236-242):
rows with fewer than three cells are skipped; a row whose third cell's
8-character prefix is in the target set and whose second cell holds an
input button contributes `(period text, button name)`. -/
def salaryCandidate (targetSet : List String) (row : List Cell) :
    Option (String × Option String) :=
  match row with
  | _ :: c1 :: c2 :: _ =>
    if pyTake8 c2.text ∈ targetSet then
      match c1.input with
      | some inp => some (c2.text, inp.nameAttr)
      | none => none
    else none
  | _ => none

/-- The salary targets collected from the full `tdb` table. -/
def scanSalaryTable (targetSet : List String) (rows : List (List Cell)) :
    List (String × Option String) :=
  rows.filterMap (salaryCandidate targetSet)

/-- One row of the bonus list scan (payslip_handler.py lines 324-331):
the fiscal-year label must occur in the period text and the full period
text must be absent from the already-fetched set. -/
def bonusCandidate (year : String) (existing : List String) (row : List Cell) :
    Option (String × Option String) :=
  match row with
  | _ :: c1 :: c2 :: _ =>
    if strContains c2.text year && !(decide (c2.text ∈ existing)) then
      match c1.input with
      | some inp => some (c2.text, inp.nameAttr)
      | none => none
    else none
  | _ => none

/-- The bonus targets collected from the full `tdb` table. -/
def scanBonusTable (year : String) (existing : List String) (rows : List (List Cell)) :
    List (String × Option String) :=
  rows.filterMap (bonusCandidate year existing)

/-! ## Detail-page parsing (`_parse_detail_salary` / `_parse_detail_bonus`) -/

/-- A parsed statement-record field value: Python `int`, `float`
(represented by its successfully-parsed literal text) or the fallback
string. -/
inductive FieldVal where
  | intVal : Int → FieldVal
  | floatVal : String → FieldVal
  | strVal : String → FieldVal
deriving DecidableEq, Repr

/-- The six salary-record fields, initialised to the `N/A` sentinel
(payslip_handler.py line 86). -/
def salaryDefaults : List (String × FieldVal) :=
  ["総支給額", "差引支給額", "総時間外", "有給消化時間", "有給使用日数", "有給残日数"].map
    (fun k => (k, FieldVal.strVal "N/A"))

/-- The fixed label dictionary of `_parse_detail_salary` (line 101). -/
def salaryLabelMap : List (String × String) :=
  [("総支給額", "総支給額"), ("差引支給額", "差引支給額"), ("総時間外", "総時間外"),
   ("有給消化時間", "有給消化時間"), ("有休使用日数", "有給使用日数"),
   ("有休残日数", "有給残日数")]

/-- `float(v) if "." in v else int(v)` with `ValueError` falling back to
the raw string (payslip_handler.py lines 96-99). -/
def pyNumSalary (s : String) : FieldVal :=
  if strContains s "." then
    if pyFloatOk s then FieldVal.floatVal s else FieldVal.strVal s
  else
    match pyInt? s with
    | some n => FieldVal.intVal n
    | none => FieldVal.strVal s

/-- Processing of one `dt`/`dd` label-value pair by
`_parse_detail_salary`: commas stripped, numeric conversion attempted,
stored only when the label is in the fixed dictionary. -/
def salaryStep (m : List (String × FieldVal)) (pr : String × String) :
    List (String × FieldVal) :=
  let v := pyNumSalary (removeCommas pr.2)
  match lookupAL salaryLabelMap pr.1 with
  | some k2 => setAL m k2 v
  | none => m

/-- `_parse_detail_salary` over the extracted `dt`/`dd` text pairs of
the detail page's `div#Html` (an absent div yields the empty pair list,
hence all sentinel defaults). -/
def parseDetailSalary (pairs : List (String × String)) : List (String × FieldVal) :=
  pairs.foldl salaryStep salaryDefaults

/-- The six bonus-record fields, initialised to the `N/A` sentinel
(payslip_handler.py line 120). -/
def bonusDefaults : List (String × FieldVal) :=
  ["賞与額", "控除合計", "差引支給額", "総支給額", "所得税", "社会保険料計"].map
    (fun k => (k, FieldVal.strVal "N/A"))

/-- Processing of one label-value pair by `_parse_detail_bonus`:
`int()` conversion only, stored only when the label is already a key of
the record (lines 128-134). -/
def bonusStep (m : List (String × FieldVal)) (pr : String × String) :
    List (String × FieldVal) :=
  let cleaned := removeCommas pr.2
  let v := match pyInt? cleaned with
    | some n => FieldVal.intVal n
    | none => FieldVal.strVal cleaned
  if (lookupAL m pr.1).isSome then setAL m pr.1 v else m

/-- `_parse_detail_bonus` over the extracted `dt`/`dd` text pairs. -/
def parseDetailBonus (pairs : List (String × String)) : List (String × FieldVal) :=
  pairs.foldl bonusStep bonusDefaults

/-! ## Payslip navigator (`PayslipHandler`) -/

/-- The three tracked ASP.NET hidden fields (`_update_aspnet_state`). -/
structure AspForm where
  viewstate : String
  eventvalidation : String
  viewstategenerator : String
deriving DecidableEq, Repr

/-- The hidden `input` elements of a payroll-portal page, as
(name attribute, optional value attribute) pairs. -/
structure PDoc where
  inputs : List (String × Option String)
deriving DecidableEq, Repr

/-- `soup.find("input", name=nm).get("value", "")`, with an absent
element or absent value attribute yielding the empty string. -/
def findInputValue (doc : PDoc) (nm : String) : String :=
  match doc.inputs.find? (fun q => q.1 == nm) with
  | some (_, some v) => v
  | _ => ""

/-- `_update_aspnet_state`: the snapshot captured from a page. -/
def extractAspState (doc : PDoc) : AspForm :=
  ⟨findInputValue doc "__VIEWSTATE", findInputValue doc "__EVENTVALIDATION",
   findInputValue doc "__VIEWSTATEGENERATOR"⟩

/-- The mutable navigation state of `PayslipHandler`. -/
structure PayslipState where
  current_url : String
  current_form : AspForm
  menu_url : String
  menu_form : AspForm
deriving DecidableEq, Repr

/-- One HTTP request issued by a handler (`__EVENTTARGET` recorded for
the payroll portal's POSTs). -/
structure Req where
  method : String
  url : String
  eventTarget : Option String
  payload : List (String × String)
deriving DecidableEq, Repr

/-- A payroll-portal response: its final URL and its document. -/
structure PResp where
  url : String
  doc : PDoc
deriving DecidableEq, Repr

/-- Environment for `PayslipHandler.login`: the configured company code
(`os.getenv`) and the responses the server gives to the login-page GET
and the credentials POST. -/
structure LoginEnv where
  companyCode : Option String
  getResp : PResp
  postResp : PResp
deriving DecidableEq, Repr

def payslipBaseUrl : String := "https://meisai.palma-svc.co.jp/users"

/-- `PayslipHandler.login` (payslip_handler.py lines 143-189): returns
the (success, message) tuple, the resulting handler state, and the
requests issued. -/
def payslipLogin (st : PayslipState) (env : LoginEnv) :
    (Bool × String) × PayslipState × List Req :=
  let missing := match env.companyCode with
    | none => true
    | some c => c = ""
  if missing then
    ((false, "環境変数 \x27LOGIN_COMPANY_CODE\x27 が未設定です"), st, [])
  else
    match env.companyCode with
    | none => ((false, "環境変数 \x27LOGIN_COMPANY_CODE\x27 が未設定です"), st, [])
    | some c =>
      let loginUrl := payslipBaseUrl ++ "/Login.aspx?c=" ++ c
      let st1 : PayslipState :=
        { st with current_url := env.getResp.url,
                  current_form := extractAspState env.getResp.doc }
      let reqs := [⟨"GET", loginUrl, none, []⟩, ⟨"POST", loginUrl, some "", []⟩]
      if strContains env.postResp.url "PMenu.aspx" then
        let f := extractAspState env.postResp.doc
        ((true, "ログイン成功"),
          { current_url := env.postResp.url, current_form := f,
            menu_url := env.postResp.url, menu_form := f }, reqs)
      else
        ((false, "ログインに失敗しました"), st1, reqs)

/-- A list-page response: final URL, document, and the `tdb` table's
rows when the table is present. -/
structure ListResp where
  url : String
  doc : PDoc
  table : Option (List (List Cell))

/-- A detail-page response: final URL, document, and the `dt`/`dd`
label-value text pairs of its `div#Html`. -/
structure DetailResp where
  url : String
  doc : PDoc
  pairs : List (String × String)

/-- Environment for a fetch flow: the list-page response, and for the
k-th candidate the detail-page response and the response to the go-back
POST; finally the response to the back-to-menu POST. -/
structure FetchEnv where
  listResp : ListResp
  detail : Nat → DetailResp
  back : Nat → ListResp
  menuResp : ListResp

/-- The detail-fetch loop shared by `fetch_salary_data` (lines 244-270)
and `fetch_bonus_data` (lines 333-359): for each candidate, POST its
button name, parse the detail page, attach the period identifier under
`dateKey`, then POST `cmdGoBack` and refresh the list-page state. -/
def runDetailLoop (env : FetchEnv)
    (parse : List (String × String) → List (String × FieldVal)) (dateKey : String) :
    PayslipState → String → Nat → List (String × Option String) →
    List (List (String × FieldVal)) × PayslipState × String × List Req
  | st, listUrl, _, [] => ([], st, listUrl, [])
  | st, listUrl, k, (dText, btnName) :: rest =>
    let d := env.detail k
    let record := setAL (parse d.pairs) dateKey (FieldVal.strVal dText)
    let stD : PayslipState :=
      { st with current_url := d.url, current_form := extractAspState d.doc }
    let lr := env.back k
    let stL : PayslipState :=
      { stD with current_url := lr.url, current_form := extractAspState lr.doc }
    let next := runDetailLoop env parse dateKey stL lr.url (k + 1) rest
    (record :: next.1, next.2.1, next.2.2.1,
      ⟨"POST", listUrl, btnName, []⟩ :: ⟨"POST", d.url, some "cmdGoBack", []⟩ :: next.2.2.2)

/-- `PayslipHandler.fetch_salary_data` (lines 205-288): an empty target
set short-circuits; otherwise POST `cmdShowSalary`, scan the `tdb`
table (no check of the list page's URL), run the detail loop, then POST
`cmdGoBack` to return to the menu and cache the fresh menu state. -/
def fetchSalaryData (st : PayslipState) (env : FetchEnv) (targetSet : List String) :
    List (List (String × FieldVal)) × PayslipState × List Req :=
  if targetSet.isEmpty then ([], st, [])
  else
    let lr := env.listResp
    let st1 : PayslipState :=
      { st with current_url := lr.url, current_form := extractAspState lr.doc }
    let targets := match lr.table with
      | some rows => scanSalaryTable targetSet rows
      | none => []
    let next := runDetailLoop env parseDetailSalary "年月日" st1 lr.url 0 targets
    let mr := env.menuResp
    let st3 : PayslipState :=
      { current_url := mr.url, current_form := extractAspState mr.doc,
        menu_url := mr.url, menu_form := extractAspState mr.doc }
    (next.1, st3,
      (⟨"POST", st.menu_url, some "cmdShowSalary", []⟩ :: next.2.2.2)
        ++ [⟨"POST", next.2.2.1, some "cmdGoBack", []⟩])

/-- `PayslipHandler.fetch_bonus_data` (lines 290-377): POST
`cmdShowBonus`; when the response URL does not contain `PShowSB.aspx`
return the empty result immediately, otherwise scan, run the detail
loop and return to the menu. -/
def fetchBonusData (st : PayslipState) (env : FetchEnv) (year : String)
    (existing : List String) :
    List (List (String × FieldVal)) × PayslipState × List Req :=
  let req0 : Req := ⟨"POST", st.menu_url, some "cmdShowBonus", []⟩
  if strContains env.listResp.url "PShowSB.aspx" then
    let lr := env.listResp
    let st1 : PayslipState :=
      { st with current_url := lr.url, current_form := extractAspState lr.doc }
    let targets := match lr.table with
      | some rows => scanBonusTable year existing rows
      | none => []
    let next := runDetailLoop env parseDetailBonus "支給日" st1 lr.url 0 targets
    let mr := env.menuResp
    let st3 : PayslipState :=
      { current_url := mr.url, current_form := extractAspState mr.doc,
        menu_url := mr.url, menu_form := extractAspState mr.doc }
    (next.1, st3, (req0 :: next.2.2.2) ++ [⟨"POST", next.2.2.1, some "cmdGoBack", []⟩])
  else
    ([], st, [req0])

/-! ## Dates (`datetime.date`) -/

/-- A proleptic-Gregorian calendar date as validated by Python's
`datetime.date` constructor. -/
structure PyDate where
  year : Nat
  month : Nat
  day : Nat
deriving DecidableEq, Repr

def isLeapYear (y : Nat) : Bool := (y % 4 == 0 && y % 100 != 0) || y % 400 == 0

def daysInMonth (y m : Nat) : Nat :=
  if m == 2 then (if isLeapYear y then 29 else 28)
  else if m == 4 || m == 6 || m == 9 || m == 11 then 30
  else 31

def daysBeforeMonth (y m : Nat) : Nat :=
  (List.range (m - 1)).foldl (fun a k => a + daysInMonth y (k + 1)) 0

/-- `date.toordinal()`: day 1 is 0001-01-01. -/
def toOrdinal (d : PyDate) : Nat :=
  365 * (d.year - 1) + (d.year - 1) / 4 + (d.year - 1) / 400 - (d.year - 1) / 100
    + daysBeforeMonth d.year d.month + d.day

/-- `date.weekday()`: Monday = 0 … Sunday = 6. -/
def pyWeekday (d : PyDate) : Nat := (toOrdinal d + 6) % 7

/-- The `date(y, m, d)` constructor: `ValueError` on out-of-range
components is modelled as `none`. -/
def mkDate? (y m d : Int) : Option PyDate :=
  if 1 ≤ y ∧ y ≤ 9999 ∧ 1 ≤ m ∧ m ≤ 12 ∧ 1 ≤ d
      ∧ d ≤ (daysInMonth y.toNat m.toNat : Int) then
    some ⟨y.toNat, m.toNat, d.toNat⟩
  else none

/-- The date-recovery step of `_build_payload` (schedule_handler.py
lines 324-332): `YYYY/MM/DD` or `MM/DD` (current year); an `int()` or
`date()` `ValueError`, or any other shape, yields no date (in the source
the `ValueError` is caught and only skips the auto-fill block, which is
observably the same). -/
def parseWorkDate (today : PyDate) (s : String) : Option PyDate :=
  match splitSlash s with
  | [a, b, c] =>
    match pyInt? a, pyInt? b, pyInt? c with
    | some y, some m, some d => mkDate? y m d
    | _, _, _ => none
  | [a, b] =>
    match pyInt? a, pyInt? b with
    | some m, some d => mkDate? (today.year : Int) m d
    | _, _ => none
  | _ => none

/-! ## Schedule navigator (`ScheduleHandler`) -/

/-- One schedule row as supplied by the UI to `update_schedule`: the
keys the handler reads from each row dict (all present, as produced by
`_parse_schedule_rows` / the schedule table view). -/
structure URow where
  index : Nat
  id : String
  workDate : String
  shukujitsu : String
  start_h : String
  start_m : String
  end_h : String
  end_m : String
  rest_h : String
  rest_m : String
  mid_h : String
  mid_m : String
  workType : String
  comment : String
deriving DecidableEq, Repr

/-- `_validate_input`, one row (schedule_handler.py lines 251-274): the
violation messages this row contributes, in source order. -/
def validateRow (row : URow) : List String :=
  let dl := row.workDate
  let sh := pyStrip row.start_h
  let sm := pyStrip row.start_m
  let eh := pyStrip row.end_h
  let em := pyStrip row.end_m
  let rh := pyStrip row.rest_h
  let rm := pyStrip row.rest_m
  let mh := pyStrip row.mid_h
  let mm := pyStrip row.mid_m
  let hasStart := sh != "" && sm != ""
  let hasEnd := eh != "" && em != ""
  (if (sh != "") != (sm != "") then ["【" ++ dl ++ "】開始時間の時・分不揃い"] else [])
    ++ (if (eh != "") != (em != "") then ["【" ++ dl ++ "】終了時間の時・分不揃い"] else [])
    ++ (if (rh != "") != (rm != "") then ["【" ++ dl ++ "】休憩時間の時・分不揃い"] else [])
    ++ (if (mh != "") != (mm != "") then ["【" ++ dl ++ "】深夜時間の時・分不揃い"] else [])
    ++ (if hasStart != hasEnd then ["【" ++ dl ++ "】開始・終了時間はセットで入力してください"] else [])
    ++ (if (rh != "" || mh != "") && !hasStart then ["【" ++ dl ++ "】休憩・深夜のみの入力はできません"] else [])

/-- `_validate_input` over the whole row list: all rows' violations are
accumulated in order (not fail-fast). -/
def validateInput (l : List URow) : List String :=
  l.foldr (fun r acc => validateRow r ++ acc) []

/-- One form control of the schedule page's bulk-edit form. -/
structure FormTag where
  tag : String
  typeAttr : Option String
  nameAttr : Option String
  valueAttr : Option String
  checked : Bool
  options : List (Option String × Bool)
  textContent : String
deriving DecidableEq, Repr

/-- Step 1 of `_build_payload` (lines 296-311): the verbatim copy of
every named input/select/textarea value (checked boxes only; selected or
first option of a select; textarea text). -/
def collectFormFields (tags : List FormTag) : List (String × String) :=
  tags.foldl (fun p t =>
    match t.nameAttr with
    | none => p
    | some nm =>
      if t.tag == "input" && (t.typeAttr == some "checkbox" || t.typeAttr == some "radio") then
        if t.checked then setAL p nm (t.valueAttr.getD "on") else p
      else
        let v :=
          if t.tag == "textarea" then t.textContent
          else if t.tag == "select" then
            match t.options.find? (fun o => o.2) with
            | some o => o.1.getD ""
            | none =>
              match t.options.head? with
              | some o => o.1.getD ""
              | none => ""
          else t.valueAttr.getD ""
        setAL p nm v) []

def rowBase (i : Nat) : String := "workDataDetailList[" ++ toString i ++ "]"

/-- The auto-fill step of `_build_payload` (lines 323-347): a past,
holiday-flagged (weekend or designated-holiday) row whose start hour,
work type and comment are all empty/default gets the fixed
no-work-performed comment. -/
def autoRow (today : PyDate) (row : URow) : URow :=
  match parseWorkDate today row.workDate with
  | none => row
  | some w =>
    let isEmptyInput := pyStrip row.start_h == "" && row.workType == "99"
      && pyStrip row.comment == ""
    let isHoliday := decide (5 ≤ pyWeekday w) || row.shukujitsu == "true"
    if decide (toOrdinal w < toOrdinal today) && isHoliday && isEmptyInput then
      { row with comment := "稼働なし" }
    else row

/-- The confirmed-flag condition of `_build_payload` (lines 373-377),
evaluated on the (possibly auto-filled) row: non-blank start hour, or
non-empty comment, or a non-empty work type other than "99". -/
def kakCond (row : URow) : Bool :=
  (row.start_h != "" && pyStrip row.start_h != "") || row.comment != ""
    || (row.workType != "" && row.workType != "99")

/-- Step 2 of `_build_payload` for one row (lines 319-378): auto-fill,
then overlay the row's id and edited values ("00" midnight components
blanked), then set the row's confirmed flag when `kakCond` holds. -/
def applyRow (today : PyDate) (p : List (String × String)) (row0 : URow) :
    List (String × String) :=
  let row := autoRow today row0
  let base := rowBase row.index
  let p := if row.id != "" then setAL p (base ++ ".id") row.id else p
  let mh := if row.mid_h == "00" then "" else row.mid_h
  let mm := if row.mid_m == "00" then "" else row.mid_m
  let p := setAL p (base ++ ".workStartTimeHour") row.start_h
  let p := setAL p (base ++ ".workStartTimeMinute") row.start_m
  let p := setAL p (base ++ ".workEndTimeHour") row.end_h
  let p := setAL p (base ++ ".workEndTimeMinute") row.end_m
  let p := setAL p (base ++ ".restTimeHour") row.rest_h
  let p := setAL p (base ++ ".restTimeMinute") row.rest_m
  let p := setAL p (base ++ ".midnightTimeHour") mh
  let p := setAL p (base ++ ".midnightTimeMinute") mm
  let p := setAL p (base ++ ".workType") row.workType
  let p := setAL p (base ++ ".comment") row.comment
  if kakCond row then setAL p (base ++ ".kakutei") "true" else p

/-- `_build_payload` (lines 278-384): verbatim form copy, removal of
every key ending in ".kakutei", per-row overlay, and the register
marker.  (The source's final None-to-empty normalisation is the
identity here, all modelled values being strings.) -/
def buildPayload (today : PyDate) (form : List FormTag) (ui : List URow) :
    List (String × String) :=
  let p := collectFormFields form
  let p := p.filter (fun q => !(strEnds q.1 ".kakutei"))
  let p := ui.foldl (applyRow today) p
  setAL p "register" "登録"

/-- A schedule-submit response body: its raw text (for the marker
substring checks) together with the stripped texts of its elements
carrying the "error" class and, when present, the items of its
red-styled list (the pieces `_extract_error_message` scrapes). -/
structure RespBody where
  text : String
  errorClassTexts : List String
  redListItems : Option (List String)
deriving DecidableEq, Repr

/-- `_extract_error_message` (lines 386-409): non-empty error-class
texts, else the red-list items, joined with " / ", else the
unknown-detail fallback. -/
def extractErrorMessage (b : RespBody) : String :=
  let msgs := b.errorClassTexts.filter (fun t => t != "")
  let msgs := if msgs.isEmpty then
      match b.redListItems with
      | some lis => lis
      | none => []
    else msgs
  if msgs.isEmpty then "（詳細不明）" else joinSep " / " msgs

/-- The configuration-derived state of `ScheduleHandler`. -/
structure SchedState where
  current_url : String
  loginUrl : String
  origin : String
deriving DecidableEq, Repr

/-- Python falsiness of an `os.getenv` result (unset, or set empty). -/
def optFalsy : Option String → Bool
  | none => true
  | some s => s == ""

/-- `ScheduleHandler.__init__` (lines 22-40): a missing or empty
`SCHEDULE_LOGIN_URL` or `SCHEDULE_ORIGIN` raises `ValueError` before
anything else happens (the constructor performs no network call). -/
def scheduleInit (loginUrl origin : Option String) : Except String SchedState :=
  if optFalsy loginUrl || optFalsy origin then
    Except.error "環境変数の設定エラー"
  else
    Except.ok ⟨"", loginUrl.getD "", origin.getD ""⟩

/-- Environment for `update_schedule`: the bulk-edit form obtained from
the preliminary GET, the resolved submit URL (the form's action joined
to the current URL), the POST response body, and the outcome of the
post-submit `get_current_data` refetch (its row parsing is external to
the claims and supplied by the environment). -/
structure SchedEnv where
  formTags : List FormTag
  postUrl : String
  postBody : RespBody
  refetchOk : Bool
  refetchRows : List URow

/-- `ScheduleHandler.update_schedule` (lines 100-170): ORIGIN
precondition, client-side validation (aggregated, before any request),
GET + payload build + POST, server-side marker checks, refetch. -/
def updateSchedule (st : SchedState) (env : SchedEnv) (today : PyDate)
    (ui : List URow) : (Bool × String × List URow) × List Req :=
  if st.origin == "" then ((false, "環境設定エラー: ORIGIN設定がありません。", []), [])
  else
    let errors := validateInput ui
    if !errors.isEmpty then
      ((false, "入力内容に不備があります。修正してください。\n\n" ++ joinSep "\n" errors, []), [])
    else
      let req1 : Req := ⟨"GET", st.current_url, none, []⟩
      let req2 : Req := ⟨"POST", env.postUrl, none, buildPayload today env.formTags ui⟩
      let b := env.postBody
      if strContains b.text "System Error" || strContains b.text "システムエラー" then
        ((false, "システムエラーが発生しました。", []), [req1, req2])
      else if strContains b.text "入力エラー" || strContains b.text "class=\x22error\x22" then
        ((false, "入力エラー: " ++ extractErrorMessage b, []), [req1, req2])
      else
        let req3 : Req := ⟨"GET", st.current_url, none, []⟩
        if env.refetchOk then
          ((true, "登録が完了しました。", env.refetchRows), [req1, req2, req3])
        else
          ((true, "登録が完了しました。\n(ただし最新データの再取得に失敗しました)", []),
            [req1, req2, req3])

/-- The confirmed-flag condition as worded by the specification (claim
C5): "a non-empty start time, OR a non-empty comment, OR a work-type
other than the default unset code 99".  Stated for comparison with the
source's `kakCond`; the two differ on a whitespace-only start hour and
on an empty work type. -/
def specC5ConfirmedCond (row : URow) : Bool :=
  row.start_h != "" || row.comment != "" || row.workType != "99"

/-! ## Concrete fixtures used by witnesses and counterexamples -/

def stP : PayslipState :=
  ⟨"https://meisai.palma-svc.co.jp/users/PMenu.aspx", ⟨"vs0", "ev0", "vg0"⟩,
   "https://meisai.palma-svc.co.jp/users/PMenu.aspx", ⟨"vs0", "ev0", "vg0"⟩⟩

def loginEnvFail : LoginEnv :=
  ⟨some "9999",
   ⟨"https://meisai.palma-svc.co.jp/users/Login.aspx?c=9999",
    ⟨[("__VIEWSTATE", some "aaa"), ("__EVENTVALIDATION", some "bbb")]⟩⟩,
   ⟨"https://meisai.palma-svc.co.jp/users/Login.aspx?c=9999", ⟨[]⟩⟩⟩

def emptyPDoc : PDoc := ⟨[]⟩

def lRespMenu : ListResp :=
  ⟨"https://meisai.palma-svc.co.jp/users/PMenu.aspx", emptyPDoc, none⟩

def dRespNil : DetailResp := ⟨"", emptyPDoc, []⟩

/-- A fetch environment whose show-bonus POST lands back on the menu
page (no `PShowSB.aspx` in the URL). -/
def fetchEnvNoB : FetchEnv := ⟨lRespMenu, fun _ => dRespNil, fun _ => lRespMenu, lRespMenu⟩

def today0 : PyDate := ⟨2025, 7, 25⟩

/-- 2025-07-20 is a Sunday strictly before `today0`. -/
def rowPastSun : URow :=
  ⟨3, "77", "2025/07/20", "false", "", "", "", "", "", "", "", "", "99", ""⟩

/-- 2025-07-27 is a Sunday strictly after `today0`. -/
def rowFutureSun : URow :=
  ⟨3, "77", "2025/07/27", "false", "", "", "", "", "", "", "", "", "99", ""⟩

/-- A row with a whitespace-only start hour and an empty work type. -/
def rowBlankStart : URow :=
  ⟨0, "", "", "", " ", "", "", "", "", "", "", "", "", ""⟩

/-- A row supplying rest minutes without any start time. -/
def rowRestOnly : URow :=
  ⟨0, "", "2025/07/01", "", "", "", "", "", "", "30", "", "", "99", ""⟩

/-- A form carrying a previously-confirmed checkbox for row 7. -/
def formKak : List FormTag :=
  [⟨"input", some "checkbox", some "workDataDetailList[7].kakutei", some "true",
    true, [], ""⟩]

def stS : SchedState :=
  ⟨"https://ts.wjtime.jp/work", "https://ts.wjtime.jp/auth/login", "https://ts.wjtime.jp"⟩

def schedEnvA : SchedEnv := ⟨[], "https://ts.wjtime.jp/work/update", ⟨"ok", [], none⟩, true, []⟩

/-- A POST response carrying two error-class elements A and B. -/
def bodyErrAB : RespBody :=
  ⟨"<p class=\x22error\x22>A</p><p class=\x22error\x22>B</p>", ["A", "B"], none⟩

def schedEnvErr : SchedEnv := ⟨[], "https://ts.wjtime.jp/work/update", bodyErrAB, true, []⟩

/-! ## Theorems -/

theorem lookupAL_setAL_self {α : Type} (p : List (String × α)) (k : String) (v : α) :
    lookupAL (setAL p k v) k = some v := by
  induction p with
  | nil => simp [setAL, lookupAL]
  | cons q t ih =>
    by_cases hq : q.1 = k
    · simp [setAL, hq, lookupAL]
    · simp [setAL, hq, lookupAL, ih]

theorem lookupAL_setAL_ne {α : Type} (p : List (String × α)) (k k' : String) (v : α)
    (h : k' ≠ k) : lookupAL (setAL p k v) k' = lookupAL p k' := by
  have hk : ¬ (k = k') := fun hh => h hh.symm
  induction p with
  | nil => simp [setAL, lookupAL, hk]
  | cons q t ih =>
    by_cases hq : q.1 = k
    · have hq2 : ¬ (q.1 = k') := by
        rw [hq]; exact hk
      simp [setAL, hq, lookupAL, hk, hq2]
    · by_cases hq' : q.1 = k'
      · simp [setAL, hq, lookupAL, hq', h]
      · simp [setAL, hq, lookupAL, hq', ih]

/-- A candidate produced by a row of the table is among the period
identifiers returned by the full scan. -/
theorem bonusCandidate_mem_scan {y : String} {ex : List String}
    {rows : List (List Cell)} {r : List Cell} {pr : String × Option String}
    (hr : r ∈ rows) (hc : bonusCandidate y ex r = some pr) :
    pr.1 ∈ (scanBonusTable y ex rows).map Prod.fst :=
  List.mem_map.mpr ⟨pr, List.mem_filterMap.mpr ⟨r, hr, hc⟩, rfl⟩

/-- Claim C2: a salary-list row (whose second cell holds a button)
becomes a fetch candidate iff the 8-character prefix of its third cell's
text is in the caller's target set; and the target set
`[令和07年07月]` scanned against a table with rows `令和07年06月`/btnA
and `令和07年07月`/btnB yields exactly the single candidate btnB. -/
theorem c2_salary_candidate_filter :
    (∀ (ts : List String) (c0 c1 c2 : Cell) (rest : List Cell) (inp : TdInput),
      c1.input = some inp →
      (salaryCandidate ts (c0 :: c1 :: c2 :: rest) = some (c2.text, inp.nameAttr) ↔
        pyTake8 c2.text ∈ ts))
    ∧ scanSalaryTable ["令和07年07月"]
        [[⟨"", none⟩, ⟨"", some ⟨some "btnA"⟩⟩, ⟨"令和07年06月", none⟩],
         [⟨"", none⟩, ⟨"", some ⟨some "btnB"⟩⟩, ⟨"令和07年07月", none⟩]]
      = [("令和07年07月", some "btnB")] := by
  constructor
  · intro ts c0 c1 c2 rest inp hinp
    by_cases hmem : pyTake8 c2.text ∈ ts
    · simp [salaryCandidate, hinp, hmem]
    · simp [salaryCandidate, hinp, hmem]
  · decide

theorem c2_salary_candidate_filter_witness :
    salaryCandidate ["令和07年07月"]
      [⟨"", none⟩, ⟨"", some ⟨some "btnB"⟩⟩, ⟨"令和07年07月", none⟩]
      = some ("令和07年07月", some "btnB") :=
  (c2_salary_candidate_filter.1 ["令和07年07月"] ⟨"", none⟩
    ⟨"", some ⟨some "btnB"⟩⟩ ⟨"令和07年07月", none⟩ [] ⟨some "btnB"⟩ rfl).mpr
    (by decide)

/-- Claim C3: a bonus-list row (with a button) is a fetch candidate iff
the fiscal-year label occurs in its period text and the full period text
is absent from the already-have set; consequently a second scan of the
same table, with the already-have set augmented by the period
identifiers returned by the first scan, yields no candidates. -/
theorem c3_bonus_filter_and_idempotence :
    (∀ (y : String) (ex : List String) (c0 c1 c2 : Cell) (rest : List Cell)
        (inp : TdInput),
      c1.input = some inp →
      (bonusCandidate y ex (c0 :: c1 :: c2 :: rest) = some (c2.text, inp.nameAttr) ↔
        (strContains c2.text y = true ∧ c2.text ∉ ex)))
    ∧ (∀ (y : String) (ex : List String) (rows : List (List Cell)),
      scanBonusTable y (ex ++ (scanBonusTable y ex rows).map Prod.fst) rows = []) := by
  constructor
  · intro y ex c0 c1 c2 rest inp hinp
    by_cases h1 : strContains c2.text y
    · by_cases h2 : c2.text ∈ ex
      · simp [bonusCandidate, hinp, h1, h2]
      · simp [bonusCandidate, hinp, h1, h2]
    · simp [bonusCandidate, hinp, h1]
  · intro y ex rows
    rw [scanBonusTable, List.filterMap_eq_nil_iff]
    intro r hr
    match r with
    | [] => rfl
    | [c0] => rfl
    | [c0, c1] => rfl
    | c0 :: c1 :: c2 :: rest =>
      by_cases h1 : strContains c2.text y
      · by_cases h2 : c2.text ∈ ex ++ (scanBonusTable y ex rows).map Prod.fst
        · simp [bonusCandidate, h1, h2]
        · have hne : c2.text ∉ ex := fun hmem =>
            h2 (List.mem_append.mpr (Or.inl hmem))
          cases hinp : c1.input with
          | none => simp [bonusCandidate, h1, h2, hinp]
          | some inp =>
            exfalso
            have hcand : bonusCandidate y ex (c0 :: c1 :: c2 :: rest)
                = some (c2.text, inp.nameAttr) := by
              simp [bonusCandidate, h1, hne, hinp]
            exact h2 (List.mem_append.mpr
              (Or.inr (bonusCandidate_mem_scan hr hcand)))
      · simp [bonusCandidate, h1]

theorem c3_bonus_filter_and_idempotence_witness :
    bonusCandidate "令和07年" []
      [⟨"", none⟩, ⟨"", some ⟨some "btnX"⟩⟩, ⟨"令和07年12月10日", none⟩]
      = some ("令和07年12月10日", some "btnX") :=
  (c3_bonus_filter_and_idempotence.1 "令和07年" [] ⟨"", none⟩
    ⟨"", some ⟨some "btnX"⟩⟩ ⟨"令和07年12月10日", none⟩ [] ⟨some "btnX"⟩ rfl).mpr
    (by exact ⟨by decide, by decide⟩)

theorem sufTest_iff (pat l : List Char) : sufTest pat l = true ↔ pat <:+ l := by
  induction l with
  | nil =>
    simp only [sufTest, List.isEmpty_iff, List.suffix_nil]
  | cons c t ih =>
    simp only [sufTest, Bool.or_eq_true, beq_iff_eq, ih, List.suffix_cons_iff]

theorem strEnds_append_self (a pat : String) : strEnds (a ++ pat) pat = true := by
  rw [strEnds, String.data_append, sufTest_iff]
  exact List.suffix_append a.data pat.data

theorem suffix_append_iff_of_le {α : Type} {pat s : List α} (b : List α)
    (h : pat.length ≤ s.length) : pat <:+ b ++ s ↔ pat <:+ s := by
  induction b with
  | nil => simp
  | cons x b ih =>
    constructor
    · intro hsfx
      rcases List.suffix_cons_iff.mp hsfx with he | ht
      · exfalso
        have hl := congrArg List.length he
        rw [List.length_cons] at hl
        have hl2 : (b.append s).length = b.length + s.length := List.length_append b s
        omega
      · exact ih.mp ht
    · intro hsfx
      exact hsfx.trans (List.suffix_append (x :: b) s)

theorem suffix_of_suffix_append_ge {α : Type} {pat s : List α} (b : List α)
    (h : s.length ≤ pat.length) (hsfx : pat <:+ b ++ s) : s <:+ pat := by
  induction b with
  | nil =>
    have h1 := hsfx.length_le
    simp only [List.nil_append] at hsfx h1
    have : pat = s := hsfx.sublist.eq_of_length (Nat.le_antisymm h1 h)
    rw [this]
  | cons x b ih =>
    rcases List.suffix_cons_iff.mp hsfx with he | ht
    · rw [he]
      exact List.suffix_cons_iff.mpr (Or.inr (List.suffix_append b s))
    · exact ih ht

/-- None of the per-row overlay keys ends in ".kakutei". -/
theorem strEnds_rowKey_kakutei_false (a s : String)
    (hs : s ∈ [".id", ".workStartTimeHour", ".workStartTimeMinute", ".workEndTimeHour",
      ".workEndTimeMinute", ".restTimeHour", ".restTimeMinute", ".midnightTimeHour",
      ".midnightTimeMinute", ".workType", ".comment"]) :
    strEnds (a ++ s) ".kakutei" = false := by
  cases hv : strEnds (a ++ s) ".kakutei"
  · rfl
  · exfalso
    rw [strEnds, String.data_append, sufTest_iff] at hv
    fin_cases hs
    · exact absurd (suffix_of_suffix_append_ge a.data (by decide) hv) (by decide)
    all_goals exact absurd ((suffix_append_iff_of_le a.data (by decide)).mp hv) (by decide)

theorem strAppend_ne_right (a : String) {b c : String} (h : b ≠ c) :
    a ++ b ≠ a ++ c := by
  intro hh
  apply h
  apply String.ext
  have hd := congrArg String.data hh
  rw [String.data_append, String.data_append] at hd
  exact List.append_cancel_left hd

theorem rowKey_ne_register (i : Nat) (s : String) : rowBase i ++ s ≠ "register" := by
  intro h
  have hl := congrArg String.length h
  rw [rowBase] at hl
  rw [String.length_append, String.length_append, String.length_append] at hl
  have h19 : ("workDataDetailList[" : String).length = 19 := by decide
  have h1 : ("]" : String).length = 1 := by decide
  have h8 : ("register" : String).length = 8 := by decide
  omega

theorem lookupAL_filter_key {α : Type} (p : List (String × α)) (k : String)
    (g : String → Bool) (hk : g k = false) :
    lookupAL (p.filter (fun q => g q.1)) k = none := by
  induction p with
  | nil => rfl
  | cons q t ih =>
    by_cases hq : g q.1
    · by_cases hqk : q.1 = k
      · rw [hqk] at hq
        rw [hk] at hq
        exact absurd hq (by simp)
      · simp [List.filter_cons, hq, lookupAL, hqk, ih]
    · simp only [List.filter_cons, Bool.not_eq_true] at hq ⊢
      rw [hq]
      exact ih

theorem lookupAL_foldl_setAL_ne {α : Type} (l : List (String × α)) (k : String)
    (g : String → String) :
    ∀ p : List (String × α), (∀ kv ∈ l, g kv.1 ≠ k) →
    lookupAL (l.foldl (fun q kv => setAL q (g kv.1) kv.2) p) k = lookupAL p k := by
  induction l with
  | nil => intro p _; rfl
  | cons kv t ih =>
    intro p h
    calc lookupAL ((kv :: t).foldl (fun q kv => setAL q (g kv.1) kv.2) p) k
        = lookupAL (t.foldl (fun q kv => setAL q (g kv.1) kv.2)
            (setAL p (g kv.1) kv.2)) k := rfl
      _ = lookupAL (setAL p (g kv.1) kv.2) k :=
          ih _ (fun x hx => h x (List.mem_cons_of_mem kv hx))
      _ = lookupAL p k :=
          lookupAL_setAL_ne _ _ _ _
            (fun hh => h kv (List.mem_cons_self kv t) hh.symm)

theorem autoRow_index (today : PyDate) (row : URow) :
    (autoRow today row).index = row.index := by
  unfold autoRow
  rcases hw : parseWorkDate today row.workDate with _ | w
  · rfl
  · simp only []
    split <;> rfl

theorem lookupAL_applyRow_comment (today : PyDate) (p : List (String × String))
    (row0 : URow) :
    lookupAL (applyRow today p row0) (rowBase row0.index ++ ".comment")
      = some (autoRow today row0).comment := by
  simp only [applyRow, autoRow_index]
  by_cases hkc : kakCond (autoRow today row0)
  · rw [if_pos hkc,
      lookupAL_setAL_ne _ _ _ _ (strAppend_ne_right _ (by decide)),
      lookupAL_setAL_self]
  · rw [if_neg hkc, lookupAL_setAL_self]

theorem lookupAL_applyRow_kakutei (today : PyDate) (p : List (String × String))
    (row0 : URow) :
    lookupAL (applyRow today p row0) (rowBase row0.index ++ ".kakutei")
      = if kakCond (autoRow today row0) then some "true"
        else lookupAL p (rowBase row0.index ++ ".kakutei") := by
  simp only [applyRow, autoRow_index]
  by_cases hkc : kakCond (autoRow today row0)
  · rw [if_pos hkc, if_pos hkc, lookupAL_setAL_self]
  · rw [if_neg hkc, if_neg hkc,
      lookupAL_setAL_ne _ _ _ _ (strAppend_ne_right _ (by decide)),
      lookupAL_setAL_ne _ _ _ _ (strAppend_ne_right _ (by decide)),
      lookupAL_setAL_ne _ _ _ _ (strAppend_ne_right _ (by decide)),
      lookupAL_setAL_ne _ _ _ _ (strAppend_ne_right _ (by decide)),
      lookupAL_setAL_ne _ _ _ _ (strAppend_ne_right _ (by decide)),
      lookupAL_setAL_ne _ _ _ _ (strAppend_ne_right _ (by decide)),
      lookupAL_setAL_ne _ _ _ _ (strAppend_ne_right _ (by decide)),
      lookupAL_setAL_ne _ _ _ _ (strAppend_ne_right _ (by decide)),
      lookupAL_setAL_ne _ _ _ _ (strAppend_ne_right _ (by decide)),
      lookupAL_setAL_ne _ _ _ _ (strAppend_ne_right _ (by decide))]
    by_cases hid : ((autoRow today row0).id != "")
    · rw [if_pos hid,
        lookupAL_setAL_ne _ _ _ _ (strAppend_ne_right _ (by decide))]
    · rw [if_neg hid]

theorem lookupAL_applyRow_ne (today : PyDate) (p : List (String × String))
    (row0 : URow) (k : String)
    (hne : k ≠ rowBase row0.index ++ ".kakutei")
    (hsufne : ∀ s ∈ ([".id", ".workStartTimeHour", ".workStartTimeMinute",
      ".workEndTimeHour", ".workEndTimeMinute", ".restTimeHour", ".restTimeMinute",
      ".midnightTimeHour", ".midnightTimeMinute", ".workType", ".comment"] : List String),
      k ≠ rowBase row0.index ++ s) :
    lookupAL (applyRow today p row0) k = lookupAL p k := by
  simp only [applyRow, autoRow_index]
  have hpeel : ∀ q : List (String × String),
      lookupAL (setAL (setAL (setAL (setAL (setAL (setAL (setAL (setAL (setAL (setAL q
        (rowBase row0.index ++ ".workStartTimeHour") (autoRow today row0).start_h)
        (rowBase row0.index ++ ".workStartTimeMinute") (autoRow today row0).start_m)
        (rowBase row0.index ++ ".workEndTimeHour") (autoRow today row0).end_h)
        (rowBase row0.index ++ ".workEndTimeMinute") (autoRow today row0).end_m)
        (rowBase row0.index ++ ".restTimeHour") (autoRow today row0).rest_h)
        (rowBase row0.index ++ ".restTimeMinute") (autoRow today row0).rest_m)
        (rowBase row0.index ++ ".midnightTimeHour")
          (if (autoRow today row0).mid_h == "00" then "" else (autoRow today row0).mid_h))
        (rowBase row0.index ++ ".midnightTimeMinute")
          (if (autoRow today row0).mid_m == "00" then "" else (autoRow today row0).mid_m))
        (rowBase row0.index ++ ".workType") (autoRow today row0).workType)
        (rowBase row0.index ++ ".comment") (autoRow today row0).comment) k
      = lookupAL q k := by
    intro q
    rw [lookupAL_setAL_ne _ _ _ _ (hsufne ".comment" (by decide)),
      lookupAL_setAL_ne _ _ _ _ (hsufne ".workType" (by decide)),
      lookupAL_setAL_ne _ _ _ _ (hsufne ".midnightTimeMinute" (by decide)),
      lookupAL_setAL_ne _ _ _ _ (hsufne ".midnightTimeHour" (by decide)),
      lookupAL_setAL_ne _ _ _ _ (hsufne ".restTimeMinute" (by decide)),
      lookupAL_setAL_ne _ _ _ _ (hsufne ".restTimeHour" (by decide)),
      lookupAL_setAL_ne _ _ _ _ (hsufne ".workEndTimeMinute" (by decide)),
      lookupAL_setAL_ne _ _ _ _ (hsufne ".workEndTimeHour" (by decide)),
      lookupAL_setAL_ne _ _ _ _ (hsufne ".workStartTimeMinute" (by decide)),
      lookupAL_setAL_ne _ _ _ _ (hsufne ".workStartTimeHour" (by decide))]
  have hidp : ∀ q : List (String × String),
      lookupAL (if ((autoRow today row0).id != "") = true then
        setAL q (rowBase row0.index ++ ".id") (autoRow today row0).id else q) k
      = lookupAL q k := by
    intro q
    by_cases hid : ((autoRow today row0).id != "")
    · rw [if_pos hid, lookupAL_setAL_ne _ _ _ _ (hsufne ".id" (by decide))]
    · rw [if_neg hid]
  by_cases hkc : kakCond (autoRow today row0)
  · rw [if_pos hkc, lookupAL_setAL_ne _ _ _ _ hne, hpeel, hidp]
  · rw [if_neg hkc, hpeel, hidp]

theorem lookupAL_buildPayload_comment (today : PyDate) (form : List FormTag)
    (row : URow) :
    lookupAL (buildPayload today form [row]) (rowBase row.index ++ ".comment")
      = some (autoRow today row).comment := by
  unfold buildPayload
  simp only [List.foldl_cons, List.foldl_nil]
  rw [lookupAL_setAL_ne _ _ _ _ (rowKey_ne_register row.index ".comment"),
    lookupAL_applyRow_comment]

theorem lookupAL_buildPayload_kakutei (today : PyDate) (form : List FormTag)
    (row : URow) :
    lookupAL (buildPayload today form [row]) (rowBase row.index ++ ".kakutei")
      = if kakCond (autoRow today row) then some "true" else none := by
  unfold buildPayload
  simp only [List.foldl_cons, List.foldl_nil]
  rw [lookupAL_setAL_ne _ _ _ _ (rowKey_ne_register row.index ".kakutei"),
    lookupAL_applyRow_kakutei]
  by_cases hkc : kakCond (autoRow today row)
  · rw [if_pos hkc, if_pos hkc]
  · rw [if_neg hkc, if_neg hkc]
    exact lookupAL_filter_key _ _ (fun s => !(strEnds s ".kakutei"))
      (by show (!(strEnds (rowBase row.index ++ ".kakutei") ".kakutei")) = false
          rw [strEnds_append_self]; rfl)

/-- Claim C4: during payload construction, a row whose work date parses
to a day strictly before today, whose holiday status holds (Saturday or
Sunday, or server-flagged designated holiday), and whose start hour,
work type and comment are all empty/default, gets the fixed 稼働なし
comment in the submitted payload; the same row dated today or later
keeps its (empty) comment unchanged. -/
theorem c4_autofill_past_holiday (today : PyDate) (row : URow) (w : PyDate)
    (form : List FormTag)
    (hw : parseWorkDate today row.workDate = some w)
    (hhol : 5 ≤ pyWeekday w ∨ row.shukujitsu = "true")
    (hsh : pyStrip row.start_h = "")
    (hwt : row.workType = "99")
    (hcm : pyStrip row.comment = "") :
    (toOrdinal w < toOrdinal today →
      lookupAL (buildPayload today form [row]) (rowBase row.index ++ ".comment")
        = some "稼働なし")
    ∧ (toOrdinal today ≤ toOrdinal w →
      lookupAL (buildPayload today form [row]) (rowBase row.index ++ ".comment")
        = some row.comment) := by
  have hhb : (decide (5 ≤ pyWeekday w) || (row.shukujitsu == "true")) = true := by
    rcases hhol with h5 | hsk
    · simp [h5]
    · simp [hsk]
  constructor
  · intro hlt
    have hauto : (autoRow today row).comment = "稼働なし" := by
      unfold autoRow
      rw [hw]
      simp [hsh, hwt, hcm, hlt, hhb]
    rw [lookupAL_buildPayload_comment, hauto]
  · intro hge
    have hnlt : ¬ (toOrdinal w < toOrdinal today) := Nat.not_lt.mpr hge
    have hauto : (autoRow today row).comment = row.comment := by
      unfold autoRow
      rw [hw]
      simp [hnlt]
    rw [lookupAL_buildPayload_comment, hauto]

theorem c4_autofill_past_holiday_witness :
    lookupAL (buildPayload today0 [] [rowPastSun]) (rowBase rowPastSun.index ++ ".comment")
      = some "稼働なし"
    ∧ lookupAL (buildPayload today0 [] [rowFutureSun])
        (rowBase rowFutureSun.index ++ ".comment") = some rowFutureSun.comment :=
  ⟨(c4_autofill_past_holiday today0 rowPastSun ⟨2025, 7, 20⟩ [] (by decide)
      (Or.inl (by decide)) (by decide) (by decide) (by decide)).1 (by decide),
   (c4_autofill_past_holiday today0 rowFutureSun ⟨2025, 7, 27⟩ [] (by decide)
      (Or.inl (by decide)) (by decide) (by decide) (by decide)).2 (by decide)⟩

/-- Claim C5, counterexample to the claim as stated: a row whose start
hour is the single blank " " (non-empty) and whose work type is ""
(other than "99") satisfies the claim's confirmed condition, yet the
constructed payload contains no confirmed field for the row. -/
theorem c5_confirmed_flag_counterexample :
    specC5ConfirmedCond rowBlankStart = true
    ∧ lookupAL (buildPayload today0 [] [rowBlankStart]) "workDataDetailList[0].kakutei"
      = none := by
  constructor
  · decide
  · decide

/-- Claim C5 (amended): in the payload built for a row, every
confirmed-flag key (ending in ".kakutei") coming from the fetched form
is removed, and the row's own confirmed field is present (with value
"true") exactly when the row — after auto-fill — has a start hour that
is non-blank after trimming, OR a non-empty comment, OR a non-empty
work type other than "99" (`kakCond`). -/
theorem c5_confirmed_flag_amended (today : PyDate) (form : List FormTag) (row : URow) :
    (lookupAL (buildPayload today form [row]) (rowBase row.index ++ ".kakutei")
      = if kakCond (autoRow today row) then some "true" else none)
    ∧ (∀ k : String, strEnds k ".kakutei" = true →
      k ≠ rowBase row.index ++ ".kakutei" →
      lookupAL (buildPayload today form [row]) k = none) := by
  refine ⟨lookupAL_buildPayload_kakutei today form row, ?_⟩
  intro k hk hne
  have hreg : k ≠ "register" := by
    intro h
    rw [h] at hk
    exact absurd hk (by decide)
  have hsufne : ∀ s ∈ ([".id", ".workStartTimeHour", ".workStartTimeMinute",
      ".workEndTimeHour", ".workEndTimeMinute", ".restTimeHour", ".restTimeMinute",
      ".midnightTimeHour", ".midnightTimeMinute", ".workType", ".comment"] : List String),
      k ≠ rowBase row.index ++ s := by
    intro s hs heq
    rw [heq] at hk
    rw [strEnds_rowKey_kakutei_false _ s hs] at hk
    exact absurd hk (by decide)
  unfold buildPayload
  simp only [List.foldl_cons, List.foldl_nil]
  rw [lookupAL_setAL_ne _ _ _ _ hreg, lookupAL_applyRow_ne _ _ _ _ hne hsufne]
  exact lookupAL_filter_key _ _ (fun s => !(strEnds s ".kakutei"))
    (by show (!(strEnds k ".kakutei")) = false
        rw [hk]; rfl)

theorem c5_confirmed_flag_amended_witness :
    lookupAL (buildPayload today0 formKak [rowPastSun]) "workDataDetailList[7].kakutei"
      = none :=
  (c5_confirmed_flag_amended today0 formKak rowPastSun).2
    "workDataDetailList[7].kakutei" (by decide) (by decide)

/-- Claim C1: when the credentials POST does not land on the
`PMenu.aspx` menu page, `login` returns the failure tuple (no
exception) and the cached home state — menu URL and menu hidden-field
snapshot — is left unchanged. -/
theorem c1_login_failure_preserves_home (st : PayslipState) (env : LoginEnv)
    (c : String) (hc : env.companyCode = some c) (hcne : c ≠ "")
    (hfail : strContains env.postResp.url "PMenu.aspx" = false) :
    (payslipLogin st env).1 = (false, "ログインに失敗しました")
    ∧ (payslipLogin st env).2.1.menu_url = st.menu_url
    ∧ (payslipLogin st env).2.1.menu_form = st.menu_form := by
  simp [payslipLogin, hc, hcne, hfail]

theorem c1_login_failure_preserves_home_witness :
    (payslipLogin stP loginEnvFail).1 = (false, "ログインに失敗しました")
    ∧ (payslipLogin stP loginEnvFail).2.1.menu_url = stP.menu_url
    ∧ (payslipLogin stP loginEnvFail).2.1.menu_form = stP.menu_form :=
  c1_login_failure_preserves_home stP loginEnvFail "9999" rfl (by decide) (by decide)

/-- Claim C9: a missing payroll company code makes `login` fail with the
configuration message before issuing any request, and a missing schedule
login URL or origin makes the `ScheduleHandler` constructor raise
(`Except.error`) immediately. -/
theorem c9_missing_config_precondition :
    (∀ (st : PayslipState) (env : LoginEnv),
      env.companyCode = none ∨ env.companyCode = some "" →
      payslipLogin st env
        = ((false, "環境変数 \x27LOGIN_COMPANY_CODE\x27 が未設定です"), st, []))
    ∧ (∀ lu og : Option String, optFalsy lu = true ∨ optFalsy og = true →
      scheduleInit lu og = Except.error "環境変数の設定エラー") := by
  constructor
  · intro st env h
    rcases h with h | h <;> simp [payslipLogin, h]
  · intro lu og h
    rcases h with h | h <;> simp [scheduleInit, h]

theorem c9_missing_config_precondition_witness :
    payslipLogin stP ⟨none, ⟨"", ⟨[]⟩⟩, ⟨"", ⟨[]⟩⟩⟩
      = ((false, "環境変数 \x27LOGIN_COMPANY_CODE\x27 が未設定です"), stP, [])
    ∧ scheduleInit none (some "https://ts.wjtime.jp")
      = Except.error "環境変数の設定エラー" :=
  ⟨c9_missing_config_precondition.1 stP ⟨none, ⟨"", ⟨[]⟩⟩, ⟨"", ⟨[]⟩⟩⟩ (Or.inl rfl),
   c9_missing_config_precondition.2 none (some "https://ts.wjtime.jp") (Or.inl rfl)⟩

theorem runDetailLoop_records_ext (env1 env2 : FetchEnv)
    (parse : List (String × String) → List (String × FieldVal)) (dk : String)
    (hd : env1.detail = env2.detail) (hb : env1.back = env2.back) :
    ∀ (tg : List (String × Option String)) (st1 st2 : PayslipState)
      (u1 u2 : String) (k : Nat),
    (runDetailLoop env1 parse dk st1 u1 k tg).1
      = (runDetailLoop env2 parse dk st2 u2 k tg).1 := by
  intro tg
  induction tg with
  | nil => intro st1 st2 u1 u2 k; rfl
  | cons pr rest ih =>
    intro st1 st2 u1 u2 k
    obtain ⟨dText, btnName⟩ := pr
    simp only [runDetailLoop, hd, hb]
    congr 1
    exact ih _ _ _ _ _

/-- Claim C10: when the show-bonus POST does not land on the
`PShowSB.aspx` list page, `fetch_bonus_data` returns the empty result
without raising, with the handler state (menu state included) untouched
and exactly one request issued (no detail page visited); the salary
flow performs no analogous URL check — its returned records are
unchanged under any list-page response URL. -/
theorem c10_bonus_url_guard :
    (∀ (st : PayslipState) (env : FetchEnv) (y : String) (ex : List String),
      strContains env.listResp.url "PShowSB.aspx" = false →
      fetchBonusData st env y ex
        = ([], st, [⟨"POST", st.menu_url, some "cmdShowBonus", []⟩]))
    ∧ (∀ (st : PayslipState) (env : FetchEnv) (ts : List String) (u : String),
      (fetchSalaryData st
          { env with listResp := { env.listResp with url := u } } ts).1
        = (fetchSalaryData st env ts).1) := by
  constructor
  · intro st env y ex h
    simp [fetchBonusData, h]
  · intro st env ts u
    by_cases hts : ts.isEmpty
    · simp [fetchSalaryData, hts]
    · simp only [fetchSalaryData, hts, Bool.false_eq_true, if_false]
      refine runDetailLoop_records_ext _ _ _ _ ?_ ?_ _ _ _ _ _ _ <;> rfl

theorem c10_bonus_url_guard_witness :
    fetchBonusData stP fetchEnvNoB "令和07年" []
      = ([], stP, [⟨"POST", stP.menu_url, some "cmdShowBonus", []⟩]) :=
  c10_bonus_url_guard.1 stP fetchEnvNoB "令和07年" [] (by decide)

/-- Claim C6: a row supplying any rest or midnight component without a
complete start time contributes at least one violation; violations are
collected across all rows (validation of an appended row list is the
append of the individual validations); and a non-empty violation list
makes `update_schedule` return the aggregated failure message with no
request issued (the submit POST is prevented). -/
theorem c6_validation_collects_and_gates :
    (∀ row : URow,
      (pyStrip row.rest_h ≠ "" ∨ pyStrip row.rest_m ≠ "" ∨ pyStrip row.mid_h ≠ ""
        ∨ pyStrip row.mid_m ≠ "") →
      ¬(pyStrip row.start_h ≠ "" ∧ pyStrip row.start_m ≠ "") →
      validateRow row ≠ [])
    ∧ (∀ l1 l2 : List URow,
      validateInput (l1 ++ l2) = validateInput l1 ++ validateInput l2)
    ∧ (∀ (st : SchedState) (env : SchedEnv) (today : PyDate) (ui : List URow),
      st.origin ≠ "" → validateInput ui ≠ [] →
      updateSchedule st env today ui
        = ((false, "入力内容に不備があります。修正してください。\n\n"
            ++ joinSep "\n" (validateInput ui), []), [])) := by
  refine ⟨?_, ?_, ?_⟩
  · intro row hrm hns hnil
    have hhs : (pyStrip row.start_h != "" && pyStrip row.start_m != "") = false := by
      by_cases h1 : pyStrip row.start_h = ""
      · simp [h1]
      · by_cases h2 : pyStrip row.start_m = ""
        · simp [h2]
        · exact absurd ⟨h1, h2⟩ hns
    simp only [validateRow, List.append_eq_nil] at hnil
    obtain ⟨⟨⟨⟨⟨h1, h2⟩, h3⟩, h4⟩, h5⟩, h6⟩ := hnil
    rcases hrm with hr | hr | hr | hr
    · have hc : ((pyStrip row.rest_h != "" || pyStrip row.mid_h != "")
          && !(pyStrip row.start_h != "" && pyStrip row.start_m != "")) = true := by
        simp [hhs, bne_iff_ne, hr]
      rw [if_pos hc] at h6
      exact absurd h6 (List.cons_ne_nil _ _)
    · by_cases hrh : pyStrip row.rest_h = ""
      · have hc : ((pyStrip row.rest_h != "") != (pyStrip row.rest_m != "")) = true := by
          simp [hrh, bne_iff_ne, hr]
        rw [if_pos hc] at h3
        exact absurd h3 (List.cons_ne_nil _ _)
      · have hc : ((pyStrip row.rest_h != "" || pyStrip row.mid_h != "")
            && !(pyStrip row.start_h != "" && pyStrip row.start_m != "")) = true := by
          simp [hhs, bne_iff_ne, hrh]
        rw [if_pos hc] at h6
        exact absurd h6 (List.cons_ne_nil _ _)
    · have hc : ((pyStrip row.rest_h != "" || pyStrip row.mid_h != "")
          && !(pyStrip row.start_h != "" && pyStrip row.start_m != "")) = true := by
        simp [hhs, bne_iff_ne, hr]
      rw [if_pos hc] at h6
      exact absurd h6 (List.cons_ne_nil _ _)
    · by_cases hmh : pyStrip row.mid_h = ""
      · have hc : ((pyStrip row.mid_h != "") != (pyStrip row.mid_m != "")) = true := by
          simp [hmh, bne_iff_ne, hr]
        rw [if_pos hc] at h4
        exact absurd h4 (List.cons_ne_nil _ _)
      · have hc : ((pyStrip row.rest_h != "" || pyStrip row.mid_h != "")
            && !(pyStrip row.start_h != "" && pyStrip row.start_m != "")) = true := by
          simp [hhs, bne_iff_ne, hmh]
        rw [if_pos hc] at h6
        exact absurd h6 (List.cons_ne_nil _ _)
  · intro l1 l2
    unfold validateInput
    rw [List.foldr_append]
    induction l1 with
    | nil => simp
    | cons r t ih => simp [List.foldr_cons, ih, List.append_assoc]
  · intro st env today ui hO hne
    have h1 : (st.origin == "") = false := beq_eq_false_iff_ne.mpr hO
    have h2 : (validateInput ui).isEmpty = false := by
      rcases hvv : validateInput ui with _ | ⟨m, ms⟩
      · exact absurd hvv hne
      · rfl
    simp [updateSchedule, h1, h2]

theorem c6_validation_collects_and_gates_witness :
    updateSchedule stS schedEnvA today0 [rowRestOnly]
      = ((false, "入力内容に不備があります。修正してください。\n\n"
          ++ joinSep "\n" (validateInput [rowRestOnly]), []), []) :=
  c6_validation_collects_and_gates.2.2 stS schedEnvA today0 [rowRestOnly]
    (by decide) (by decide)

/-- Claim C7, counterexample to the claim as stated: the unparseable
numeric text "abc" under the mapped label 総支給額 is stored as the raw
string "abc", not as the field's "N/A" sentinel default. -/
theorem c7_parse_counterexample :
    lookupAL (parseDetailSalary [("総支給額", "abc")]) "総支給額"
      = some (FieldVal.strVal "abc")
    ∧ FieldVal.strVal "abc" ≠ FieldVal.strVal "N/A" :=
  ⟨by decide, by decide⟩

theorem lookupAL_bonusStep_none (m : List (String × FieldVal))
    (pr : String × String) (k : String) (h : lookupAL m k = none) :
    lookupAL (bonusStep m pr) k = none := by
  simp only [bonusStep]
  by_cases hp : (lookupAL m pr.1).isSome
  · rw [if_pos hp]
    by_cases hk : k = pr.1
    · rw [hk] at h
      rw [h] at hp
      exact absurd hp (by simp)
    · rw [lookupAL_setAL_ne _ _ _ _ hk]
      exact h
  · rw [if_neg hp]
    exact h

theorem lookupAL_foldl_bonusStep_none (pairs : List (String × String)) :
    ∀ (m : List (String × FieldVal)) (k : String), lookupAL m k = none →
    lookupAL (pairs.foldl bonusStep m) k = none := by
  induction pairs with
  | nil => intro m k h; exact h
  | cons pr rest ih =>
    intro m k h
    rw [List.foldl_cons]
    exact ih _ _ (lookupAL_bonusStep_none m pr k h)

theorem lookupAL_bonusStep_isSome (m : List (String × FieldVal))
    (pr : String × String) (k : String) :
    (lookupAL (bonusStep m pr) k).isSome = (lookupAL m k).isSome := by
  simp only [bonusStep]
  by_cases hp : (lookupAL m pr.1).isSome
  · rw [if_pos hp]
    by_cases hk : k = pr.1
    · rw [hk, lookupAL_setAL_self, hp]
      rfl
    · rw [lookupAL_setAL_ne _ _ _ _ hk]
  · rw [if_neg hp]

theorem lookupAL_foldl_bonusStep_isSome (pairs : List (String × String)) :
    ∀ (m : List (String × FieldVal)) (k : String),
    (lookupAL (pairs.foldl bonusStep m) k).isSome = (lookupAL m k).isSome := by
  induction pairs with
  | nil => intro m k; rfl
  | cons pr rest ih =>
    intro m k
    rw [List.foldl_cons, ih, lookupAL_bonusStep_isSome]

/-- Claim C7 (amended): for both detail parsers and every label of the
fixed field-name dictionary (salary: `salaryLabelMap`, including its two
renamed entries; bonus: the record keys themselves), the pair value has
its commas stripped and is converted — to an integer, or, for the
salary parser when the text contains a decimal point, to a float; a
label outside the dictionary is ignored; an unparseable value (no dot
and `int()` fails, or — salary — a dot and `float()` fails) is stored
as the comma-stripped raw string itself; the "N/A" sentinel remains
exactly for labels that never appear.  The value is never dropped
silently. -/
theorem c7_statement_parse_amended :
    ((∀ (pre post : List (String × String)) (k v : String),
      lookupAL salaryLabelMap k = none →
      parseDetailSalary (pre ++ (k, v) :: post) = parseDetailSalary (pre ++ post))
    ∧ (∀ (pre : List (String × String)) (k k2 v : String) (n : Int),
      lookupAL salaryLabelMap k = some k2 →
      strContains (removeCommas v) "." = false →
      pyInt? (removeCommas v) = some n →
      lookupAL (parseDetailSalary (pre ++ [(k, v)])) k2 = some (FieldVal.intVal n))
    ∧ (∀ (pre : List (String × String)) (k k2 v : String),
      lookupAL salaryLabelMap k = some k2 →
      strContains (removeCommas v) "." = true →
      pyFloatOk (removeCommas v) = true →
      lookupAL (parseDetailSalary (pre ++ [(k, v)])) k2
        = some (FieldVal.floatVal (removeCommas v)))
    ∧ (∀ (pre : List (String × String)) (k k2 v : String),
      lookupAL salaryLabelMap k = some k2 →
      strContains (removeCommas v) "." = false →
      pyInt? (removeCommas v) = none →
      lookupAL (parseDetailSalary (pre ++ [(k, v)])) k2
        = some (FieldVal.strVal (removeCommas v)))
    ∧ (∀ (pre : List (String × String)) (k k2 v : String),
      lookupAL salaryLabelMap k = some k2 →
      strContains (removeCommas v) "." = true →
      pyFloatOk (removeCommas v) = false →
      lookupAL (parseDetailSalary (pre ++ [(k, v)])) k2
        = some (FieldVal.strVal (removeCommas v)))
    ∧ (∀ (pairs : List (String × String)) (dk : String),
      lookupAL salaryDefaults dk = some (FieldVal.strVal "N/A") →
      (∀ pr ∈ pairs, lookupAL salaryLabelMap pr.1 ≠ some dk) →
      lookupAL (parseDetailSalary pairs) dk = some (FieldVal.strVal "N/A")))
    ∧ ((∀ (pre post : List (String × String)) (k v : String),
      lookupAL bonusDefaults k = none →
      parseDetailBonus (pre ++ (k, v) :: post) = parseDetailBonus (pre ++ post))
    ∧ (∀ (pre : List (String × String)) (k v : String) (n : Int),
      (lookupAL bonusDefaults k).isSome = true →
      pyInt? (removeCommas v) = some n →
      lookupAL (parseDetailBonus (pre ++ [(k, v)])) k = some (FieldVal.intVal n))
    ∧ (∀ (pre : List (String × String)) (k v : String),
      (lookupAL bonusDefaults k).isSome = true →
      pyInt? (removeCommas v) = none →
      lookupAL (parseDetailBonus (pre ++ [(k, v)])) k
        = some (FieldVal.strVal (removeCommas v)))
    ∧ (∀ (pairs : List (String × String)) (k : String),
      lookupAL bonusDefaults k = some (FieldVal.strVal "N/A") →
      (∀ pr ∈ pairs, pr.1 ≠ k) →
      lookupAL (parseDetailBonus pairs) k = some (FieldVal.strVal "N/A"))) := by
  constructor
  · refine ⟨?_, ?_, ?_, ?_, ?_, ?_⟩
    · intro pre post k v hk
      unfold parseDetailSalary
      rw [List.foldl_append, List.foldl_append, List.foldl_cons]
      congr 1
      simp [salaryStep, hk]
    · intro pre k k2 v n hm hdot hn
      have hnum : pyNumSalary (removeCommas v) = FieldVal.intVal n := by
        simp [pyNumSalary, hdot, hn]
      unfold parseDetailSalary
      rw [List.foldl_append, List.foldl_cons, List.foldl_nil]
      simp [salaryStep, hm, hnum, lookupAL_setAL_self]
    · intro pre k k2 v hm hdot hfl
      have hnum : pyNumSalary (removeCommas v) = FieldVal.floatVal (removeCommas v) := by
        simp [pyNumSalary, hdot, hfl]
      unfold parseDetailSalary
      rw [List.foldl_append, List.foldl_cons, List.foldl_nil]
      simp [salaryStep, hm, hnum, lookupAL_setAL_self]
    · intro pre k k2 v hm hdot hn
      have hnum : pyNumSalary (removeCommas v) = FieldVal.strVal (removeCommas v) := by
        simp [pyNumSalary, hdot, hn]
      unfold parseDetailSalary
      rw [List.foldl_append, List.foldl_cons, List.foldl_nil]
      simp [salaryStep, hm, hnum, lookupAL_setAL_self]
    · intro pre k k2 v hm hdot hfl
      have hnum : pyNumSalary (removeCommas v) = FieldVal.strVal (removeCommas v) := by
        simp [pyNumSalary, hdot, hfl]
      unfold parseDetailSalary
      rw [List.foldl_append, List.foldl_cons, List.foldl_nil]
      simp [salaryStep, hm, hnum, lookupAL_setAL_self]
    · have key : ∀ (pairs : List (String × String)) (m : List (String × FieldVal))
          (dk : String),
          (∀ pr ∈ pairs, lookupAL salaryLabelMap pr.1 ≠ some dk) →
          lookupAL (pairs.foldl salaryStep m) dk = lookupAL m dk := by
        intro pairs
        induction pairs with
        | nil => intro m dk _; rfl
        | cons pr rest ih =>
          intro m dk h
          rw [List.foldl_cons, ih _ _ (fun x hx => h x (List.mem_cons_of_mem pr hx))]
          rcases hl : lookupAL salaryLabelMap pr.1 with _ | k2
          · simp [salaryStep, hl]
          · have hne2 : dk ≠ k2 := by
              intro he
              exact h pr (List.mem_cons_self pr rest) (he ▸ hl)
            simp [salaryStep, hl, lookupAL_setAL_ne _ _ _ _ hne2]
      intro pairs dk hdk hall
      unfold parseDetailSalary
      rw [key pairs salaryDefaults dk hall]
      exact hdk
  · refine ⟨?_, ?_, ?_, ?_⟩
    · intro pre post k v hk
      unfold parseDetailBonus
      rw [List.foldl_append, List.foldl_append, List.foldl_cons]
      congr 1
      have hnone := lookupAL_foldl_bonusStep_none pre bonusDefaults k hk
      simp [bonusStep, hnone]
    · intro pre k v n hk hn
      unfold parseDetailBonus
      rw [List.foldl_append, List.foldl_cons, List.foldl_nil]
      have hpre : (lookupAL (pre.foldl bonusStep bonusDefaults) k).isSome = true := by
        rw [lookupAL_foldl_bonusStep_isSome]
        exact hk
      simp [bonusStep, hpre, hn, lookupAL_setAL_self]
    · intro pre k v hk hn
      unfold parseDetailBonus
      rw [List.foldl_append, List.foldl_cons, List.foldl_nil]
      have hpre : (lookupAL (pre.foldl bonusStep bonusDefaults) k).isSome = true := by
        rw [lookupAL_foldl_bonusStep_isSome]
        exact hk
      simp [bonusStep, hpre, hn, lookupAL_setAL_self]
    · have key : ∀ (pairs : List (String × String)) (m : List (String × FieldVal))
          (k : String), (∀ pr ∈ pairs, pr.1 ≠ k) →
          lookupAL (pairs.foldl bonusStep m) k = lookupAL m k := by
        intro pairs
        induction pairs with
        | nil => intro m k _; rfl
        | cons pr rest ih =>
          intro m k h
          rw [List.foldl_cons, ih _ _ (fun x hx => h x (List.mem_cons_of_mem pr hx))]
          have hne2 : k ≠ pr.1 :=
            fun he => h pr (List.mem_cons_self pr rest) he.symm
          simp only [bonusStep]
          by_cases hp : (lookupAL m pr.1).isSome
          · rw [if_pos hp, lookupAL_setAL_ne _ _ _ _ hne2]
          · rw [if_neg hp]
      intro pairs k hk hall
      unfold parseDetailBonus
      rw [key pairs bonusDefaults k hall]
      exact hk

theorem c7_statement_parse_amended_witness :
    lookupAL (parseDetailSalary [("総支給額", "1,234")]) "総支給額"
      = some (FieldVal.intVal 1234)
    ∧ lookupAL (parseDetailSalary [("有休使用日数", "12")]) "有給使用日数"
      = some (FieldVal.intVal 12)
    ∧ lookupAL (parseDetailSalary [("総時間外", "12.5")]) "総時間外"
      = some (FieldVal.floatVal (removeCommas "12.5"))
    ∧ lookupAL (parseDetailBonus [("所得税", "123,456")]) "所得税"
      = some (FieldVal.intVal 123456) :=
  ⟨c7_statement_parse_amended.1.2.1 [] "総支給額" "総支給額" "1,234" 1234
      (by decide) (by decide) (by decide),
   c7_statement_parse_amended.1.2.1 [] "有休使用日数" "有給使用日数" "12" 12
      (by decide) (by decide) (by decide),
   c7_statement_parse_amended.1.2.2.1 [] "総時間外" "総時間外" "12.5"
      (by decide) (by decide) (by decide),
   c7_statement_parse_amended.2.2.1 [] "所得税" "123,456" 123456
      (by decide) (by decide)⟩

/-- Claim C8: a schedule-submit response carrying an input-error marker
(and no system-error marker) makes `update_schedule` return failure with
the message built from the scraped error-class texts joined by " / ";
in particular two error-class elements with texts A and B yield the
combined message "A / B". -/
theorem c8_input_error_message (st : SchedState) (env : SchedEnv) (today : PyDate)
    (ui : List URow)
    (hO : st.origin ≠ "")
    (hv : validateInput ui = [])
    (hs1 : strContains env.postBody.text "System Error" = false)
    (hs2 : strContains env.postBody.text "システムエラー" = false)
    (hin : (strContains env.postBody.text "入力エラー"
        || strContains env.postBody.text "class=\x22error\x22") = true) :
    updateSchedule st env today ui
      = ((false, "入力エラー: " ++ extractErrorMessage env.postBody, []),
        [⟨"GET", st.current_url, none, []⟩,
         ⟨"POST", env.postUrl, none, buildPayload today env.formTags ui⟩])
    ∧ ∀ (t : String) (rl : Option (List String)),
      extractErrorMessage ⟨t, ["A", "B"], rl⟩ = "A / B" := by
  constructor
  · have h1 : (st.origin == "") = false := beq_eq_false_iff_ne.mpr hO
    simp [updateSchedule, h1, hv, hs1, hs2, hin]
  · intro t rl
    rfl

theorem c8_input_error_message_witness :
    updateSchedule stS schedEnvErr today0 []
      = ((false, "入力エラー: " ++ extractErrorMessage schedEnvErr.postBody, []),
        [⟨"GET", stS.current_url, none, []⟩,
         ⟨"POST", schedEnvErr.postUrl, none,
          buildPayload today0 schedEnvErr.formTags []⟩]) :=
  (c8_input_error_message stS schedEnvErr today0 [] (by decide) rfl (by decide)
    (by decide) (by decide)).1
